import Mathlib

/-!
Shallow embedding of the connexion security verification pipeline
(`connexion/security/security_handler_factory.py`,
`connexion/security/aiohttp_security_handlers_factory.py`,
`connexion/security/flask_security_handler_factory.py`).

Python dynamic values relevant to token info are strings and lists of
strings; raised exceptions are modelled with `Except`; the `no_value`
sentinel, Python `None` and a dict returned by a verification function
are three distinct constructors, mirroring the identity checks
`is cls.no_value` and `is None` in the source.
-/

/-- A Python value stored in a token-info mapping: a string claim or a
list of scope strings. -/
inductive PyVal where
  | str (s : String)
  | strList (l : List String)
deriving DecidableEq, Repr

/-- A token-info mapping (Python dict) as an association list; lookup
takes the first binding, as dict keys are unique. -/
abbrev TokenInfo := List (String × PyVal)

/-- The typed failures of the pipeline, one constructor per raise site:
`noAuthorization` and `invalidHeader` are `OAuthProblem`s,
`invalidToken`/`invalidCredentials`/`invalidApiKey` are the
`OAuthResponseProblem`s of the check wrappers, `insufficientScope` is
`OAuthScopeProblem` (carrying required scopes and the raw granted-scopes
value), `remoteTokenRejected` is the `OAuthResponseProblem` raised by the
Flask remote introspector, `configurationError` is the
`ConnexionException` of `security_deny`, and `nullAttributeError` is the
`AttributeError` from calling `.get` on Python `None`. -/
inductive Err where
  | noAuthorization
  | invalidHeader
  | invalidToken
  | invalidCredentials
  | invalidApiKey
  | insufficientScope (required : List String) (granted : PyVal)
  | remoteTokenRejected
  | configurationError
  | nullAttributeError
deriving DecidableEq, Repr

/-- What a scheme verifier (an entry of `auth_funcs`) returns when it does
not raise: the `no_value` sentinel or a token-info mapping. -/
inductive AuthResult where
  | noValue
  | ok (ti : TokenInfo)
deriving DecidableEq, Repr

/-- What a user-supplied verification function returns: the `no_value`
sentinel, Python `None`, or a token-info dict.  An empty dict is
`ti []`, distinct from both `null` and `noValue` exactly as the `is`
identity checks in the source distinguish them. -/
inductive TIResult where
  | noValue
  | null
  | ti (t : TokenInfo)
deriving DecidableEq, Repr

/-- The request data the security pipeline reads: headers and query
parameters, both looked up with dict `.get` semantics. -/
structure Request where
  headers : List (String × String)
  query : List (String × String)

/-- A configured scheme verifier: `func(request, required_scopes)`. -/
abbrev Verifier := Request → List String → Except Err AuthResult

/-- The observable outcome of a successful `verify_security` run: the two
context keys written (`request.context['user']`,
`request.context['token_info']`) and the wrapped handler's result. -/
structure Outcome (α : Type) where
  user : Option PyVal
  token_info : TokenInfo
  response : α
deriving DecidableEq, Repr

/-- Python whitespace, the characters `str.split(None, …)` splits on. -/
def isPySpace (c : Char) : Bool :=
  c = ' ' || c = '\t' || c = '\n' || c = '\x0d' || c = '\x0b' || c = '\x0c'

/-- Python `s.split(None, 1)` on a list of characters: strip leading
whitespace; if nothing is left the result is empty; otherwise the first
token runs to the next whitespace, the following whitespace run is
dropped and the verbatim remainder, when nonempty, is the second part. -/
def pySplitWs1 (s : List Char) : List (List Char) :=
  let s1 := s.dropWhile isPySpace
  if s1 = [] then []
  else
    let tok := s1.takeWhile (fun c => !isPySpace c)
    let rest := (s1.dropWhile (fun c => !isPySpace c)).dropWhile isPySpace
    if rest = [] then [tok] else [tok, rest]

/-- Helper for `pySplitWs`: accumulate the current token in reverse. -/
def pySplitWsAux : List Char → List Char → List (List Char)
  | [], acc => if acc = [] then [] else [acc.reverse]
  | c :: cs, acc =>
    if isPySpace c then
      if acc = [] then pySplitWsAux cs []
      else acc.reverse :: pySplitWsAux cs []
    else pySplitWsAux cs (c :: acc)

/-- Python `s.split()` (no maxsplit): whitespace-run split dropping empty
parts. -/
def pySplitWs (s : List Char) : List (List Char) := pySplitWsAux s []

/-- Python `s.split(':', 1)`: at most one split at the first colon. -/
def pySplitColon1 (s : List Char) : List (List Char) :=
  let before := s.takeWhile (fun c => c != ':')
  let after := s.dropWhile (fun c => c != ':')
  match after with
  | [] => [before]
  | _ :: tail => [before, tail]

/-- Python `s.lower()` restricted to ASCII case mapping. -/
def pyLower (s : List Char) : List Char := s.map Char.toLower

namespace SecurityHandlerFactory

/-- Model of `get_auth_header_value`: return `(None, None)` for a missing or empty
`Authorization` header; split the header on the first whitespace run into
auth type and value, lower-casing the type; raise `OAuthProblem`
(invalid header) when the split does not yield two parts. -/
def get_auth_header_value (request : Request) :
    Except Err (Option (List Char) × Option (List Char)) :=
  match request.headers.lookup "Authorization" with
  | none => .ok (none, none)
  | some authorization =>
    if authorization = "" then .ok (none, none)
    else
      match pySplitWs1 authorization.toList with
      | [auth_type, value] => .ok (some (pyLower auth_type), some value)
      | _ => .error .invalidHeader

/-- The granted-scopes normalization inside `validate_scope`: a list is
taken as a set (membership), a string is space-split. -/
def scope_set (token_scopes : PyVal) : List String :=
  match token_scopes with
  | .strList l => l
  | .str s => (pySplitWs s.toList).map List.asString

/-- Model of `validate_scope`: `set(required_scopes) <= token_scopes`, where a
list of granted scopes is taken as a set and a string is space-split. -/
def validate_scope (required_scopes : List String) (token_scopes : PyVal) : Bool :=
  required_scopes.all (fun x => x ∈ scope_set token_scopes)

/-- The granted-scopes read of `check_oauth_func`:
`token_info.get('scope', token_info.get('scopes', ''))`. -/
def get_token_scopes (token_info : TokenInfo) : PyVal :=
  match token_info.lookup "scope" with
  | some v => v
  | none => (token_info.lookup "scopes").getD (.str "")

/-- Model of `check_bearer_token`: call the verification function on the token;
propagate the sentinel, raise `OAuthResponseProblem` ("Provided token is
not valid") on `None`, and return anything else as the token info. -/
def check_bearer_token (token_info_func : List Char → TIResult)
    (_request : Request) (token : List Char) (_required_scopes : List String) :
    Except Err AuthResult :=
  match token_info_func token with
  | .noValue => .ok .noValue
  | .null => .error .invalidToken
  | .ti token_info => .ok (.ok token_info)

/-- Model of `check_basic_auth`: call the verification function on the username
and password; propagate the sentinel, raise `OAuthResponseProblem`
("Provided authorization is not valid") on `None`. -/
def check_basic_auth (basic_info_func : List Char → List Char → List String → TIResult)
    (_request : Request) (username password : List Char) (required_scopes : List String) :
    Except Err AuthResult :=
  match basic_info_func username password required_scopes with
  | .noValue => .ok .noValue
  | .null => .error .invalidCredentials
  | .ti token_info => .ok (.ok token_info)

/-- Model of `check_api_key`: call the verification function on the api key;
propagate the sentinel, raise `OAuthResponseProblem` ("Provided apikey is
not valid") on `None`. -/
def check_api_key (api_key_info_func : List Char → List String → TIResult)
    (_request : Request) (api_key : List Char) (required_scopes : List String) :
    Except Err AuthResult :=
  match api_key_info_func api_key required_scopes with
  | .noValue => .ok .noValue
  | .null => .error .invalidApiKey
  | .ti token_info => .ok (.ok token_info)

/-- Model of `check_oauth_func`: verify the token, read granted scopes from the
`scope` key falling back to `scopes` then to `''`, validate, and raise
`OAuthScopeProblem` carrying both values when validation fails. -/
def check_oauth_func (token_info_func : List Char → TIResult)
    (scope_validate_func : List String → PyVal → Bool)
    (_request : Request) (token : List Char) (required_scopes : List String) :
    Except Err AuthResult :=
  match token_info_func token with
  | .noValue => .ok .noValue
  | .null => .error .invalidToken
  | .ti token_info =>
    let token_scopes : PyVal := get_token_scopes token_info
    if scope_validate_func required_scopes token_scopes then .ok (.ok token_info)
    else .error (.insufficientScope required_scopes token_scopes)

/-- Model of `verify_basic`'s wrapper: return the sentinel unless the header has
auth type `basic`; base64-decode the value as Latin-1 text and split it
at the first colon, raising `OAuthProblem` ("Invalid authorization
header") if either step fails; then run `check_basic_auth`.  The
library composite `base64.b64decode(·).decode('latin1')` is the
parameter `b64decodeLatin1`, `none` meaning the decode raised. -/
def verify_basic (basic_info_func : List Char → List Char → List String → TIResult)
    (b64decodeLatin1 : List Char → Option (List Char))
    (request : Request) (required_scopes : List String) : Except Err AuthResult := do
  match ← get_auth_header_value request with
  | (some auth_type, some user_pass) =>
    if auth_type ≠ "basic".toList then pure .noValue
    else
      match b64decodeLatin1 user_pass with
      | none => throw .invalidHeader
      | some decoded =>
        match pySplitColon1 decoded with
        | [username, password] =>
          check_basic_auth basic_info_func request username password required_scopes
        | _ => throw .invalidHeader
  | _ => pure .noValue

/-- Model of `verify_bearer`'s wrapper: return the sentinel unless the header has
auth type `bearer`, else run `check_bearer_token`. -/
def verify_bearer (token_info_func : List Char → TIResult)
    (request : Request) (required_scopes : List String) : Except Err AuthResult := do
  match ← get_auth_header_value request with
  | (some auth_type, some token) =>
    if auth_type ≠ "bearer".toList then pure .noValue
    else check_bearer_token token_info_func request token required_scopes
  | _ => pure .noValue

/-- Model of `verify_oauth`'s wrapper: return the sentinel unless the header has
auth type `bearer`, else run `check_oauth_func`. -/
def verify_oauth (token_info_func : List Char → TIResult)
    (scope_validate_func : List String → PyVal → Bool)
    (request : Request) (required_scopes : List String) : Except Err AuthResult := do
  match ← get_auth_header_value request with
  | (some auth_type, some token) =>
    if auth_type ≠ "bearer".toList then pure .noValue
    else check_oauth_func token_info_func scope_validate_func request token required_scopes
  | _ => pure .noValue

/-- The `for func in auth_funcs` loop of `verify_security`: `token_info`
starts as `None` (`Option.none`); each verifier's result overwrites it
and the loop breaks on the first result that is not the sentinel.  The
returned value is the final `token_info`. -/
def auth_loop : List Verifier → Request → List String → Except Err (Option AuthResult)
  | [], _, _ => .ok none
  | func :: rest, request, required_scopes => do
    let token_info ← func request required_scopes
    if token_info = .noValue ∧ rest.isEmpty = false then auth_loop rest request required_scopes
    else pure (some token_info)

/-- Model of `verify_security`'s wrapper: run the loop; if the final `token_info`
is the sentinel raise `OAuthProblem` ("No authorization token
provided"); if it is `None` (empty `auth_funcs`) the subsequent
`token_info.get('sub', ...)` is an `AttributeError` on `None`; otherwise
write `context['user']` (`sub` falling back to `uid`) and
`context['token_info']` and invoke the wrapped handler. -/
def verify_security {α : Type} (auth_funcs : List Verifier)
    (required_scopes : List String) (function : Request → α) (request : Request) :
    Except Err (Outcome α) := do
  match ← auth_loop auth_funcs request required_scopes with
  | some .noValue => throw .noAuthorization
  | none => throw .nullAttributeError
  | some (.ok token_info) =>
    pure { user := ((token_info.lookup "sub").orElse (fun _ => token_info.lookup "uid")),
           token_info := token_info,
           response := function request }

/-- Instrumented `auth_loop` additionally returning the 0-based positions
of the verifiers invoked, in invocation order; `i` is the position of the
head of the remaining list. -/
def auth_loop_trace : List Verifier → Request → List String → Nat →
    List Nat × Except Err (Option AuthResult)
  | [], _, _, _ => ([], .ok none)
  | func :: rest, request, required_scopes, i =>
    match func request required_scopes with
    | .error e => ([i], .error e)
    | .ok token_info =>
      if token_info = .noValue ∧ rest.isEmpty = false then
        let (tr, res) := auth_loop_trace rest request required_scopes (i + 1)
        (i :: tr, res)
      else ([i], .ok (some token_info))

/-- Model of `security_deny`: wrap a handler with a function that raises
`ConnexionException` ("Error in security definitions") on every call,
never invoking the handler. -/
def security_deny {α β : Type} (_function : α → β) : α → Except Err β :=
  fun _ => .error .configurationError

/-- Python string truthiness for `a or b` chains: `None` and `''` are
falsy. -/
def pyStrTruthy : Option String → Option String
  | some s => if s = "" then none else some s
  | none => none

/-- Model of `_get_function`: read the function name from the security definition
or the environment variable (first truthy wins); resolve it when one is
present (`get_function_from_name`, modelled by `resolve`, raises at this
load-time call on an unresolvable name), else return the default. -/
def get_function_from_config {F : Type} (security_definition : List (String × String))
    (security_definition_key : String) (environ : List (String × String))
    (environ_key : String) (resolve : String → Except Err F) (default : Option F) :
    Except Err (Option F) :=
  match pyStrTruthy (security_definition.lookup security_definition_key) with
  | some func => (resolve func).map some
  | none =>
    match pyStrTruthy (environ.lookup environ_key) with
    | some func => (resolve func).map some
    | none => .ok default

end SecurityHandlerFactory

/-- The parameters of the HTTP GET issued by a remote introspector. -/
structure HttpRequestMade where
  url : String
  authorization : List Char
  timeout : Nat
deriving DecidableEq, Repr

/-- An HTTP response: `ok` is `requests`' success predicate
(`status < 400`) and `body` the parsed JSON body. -/
structure HttpResponse where
  ok : Bool
  body : TokenInfo
deriving DecidableEq, Repr

namespace SecurityHandlerFactory

/-- The base factory's `get_token_info_remote`: GET the token-info URL
with header `Authorization: Bearer <token>` and `timeout=5`; on a
non-success status return `None` (no raise), on success return the
parsed body.  The transport (`session.get`) is the parameter
`http_get`. -/
def get_token_info_remote (http_get : HttpRequestMade → HttpResponse)
    (token_info_url : String) (token : List Char) : Except Err (Option TokenInfo) :=
  let token_request := http_get
    { url := token_info_url, authorization := "Bearer ".toList ++ token, timeout := 5 }
  if token_request.ok then .ok (some token_request.body) else .ok none

end SecurityHandlerFactory

namespace FlaskSecurityHandlerFactory

/-- The Flask factory's `get_token_info_remote` wrapper: GET the
token-info URL with header `Authorization: Bearer <token>` and the
configured `remote_token_timeout`; raise `OAuthResponseProblem` on a
non-success status, else return the parsed body. -/
def get_token_info_remote (http_get : HttpRequestMade → HttpResponse)
    (remote_token_timeout : Nat) (token_info_url : String) (token : List Char) :
    Except Err TokenInfo :=
  let token_response := http_get
    { url := token_info_url, authorization := "Bearer ".toList ++ token,
      timeout := remote_token_timeout }
  if token_response.ok then .ok token_response.body else .error .remoteTokenRejected

end FlaskSecurityHandlerFactory

/-- A possibly-suspended value: `done` is a plain value, `pending` a
coroutine that must be awaited (possibly repeatedly, mirroring the
`while asyncio.iscoroutine(...)` loops). -/
inductive AsyncVal (α : Type) where
  | done (a : α)
  | pending (next : AsyncVal α)

/-- Await a possibly-suspended value to completion (`while
asyncio.iscoroutine(x): x = yield from x`). -/
def AsyncVal.resolve {α : Type} : AsyncVal α → α
  | .done a => a
  | .pending next => next.resolve

/-- An async scheme verifier: calling it may yield a coroutine whose
eventual result is a raised failure or an `AuthResult`. -/
abbrev AVerifier := Request → List String → AsyncVal (Except Err AuthResult)

namespace AsyncSecurityHandlerFactory

/-- Async `check_bearer_token`: await the verification function's result,
then classify exactly as the synchronous wrapper does. -/
def check_bearer_token (token_info_func : List Char → AsyncVal TIResult)
    (_request : Request) (token : List Char) (_required_scopes : List String) :
    Except Err AuthResult :=
  match (token_info_func token).resolve with
  | .noValue => .ok .noValue
  | .null => .error .invalidToken
  | .ti token_info => .ok (.ok token_info)

/-- Async `check_basic_auth`: await, then classify as the synchronous
wrapper does. -/
def check_basic_auth (basic_info_func : List Char → List Char → List String → AsyncVal TIResult)
    (_request : Request) (username password : List Char) (required_scopes : List String) :
    Except Err AuthResult :=
  match (basic_info_func username password required_scopes).resolve with
  | .noValue => .ok .noValue
  | .null => .error .invalidCredentials
  | .ti token_info => .ok (.ok token_info)

/-- Async `check_api_key`: await, then classify as the synchronous
wrapper does. -/
def check_api_key (api_key_info_func : List Char → List String → AsyncVal TIResult)
    (_request : Request) (api_key : List Char) (required_scopes : List String) :
    Except Err AuthResult :=
  match (api_key_info_func api_key required_scopes).resolve with
  | .noValue => .ok .noValue
  | .null => .error .invalidApiKey
  | .ti token_info => .ok (.ok token_info)

/-- Async `check_oauth_func`: await the token info and the validation
result, then proceed as the synchronous wrapper does. -/
def check_oauth_func (token_info_func : List Char → AsyncVal TIResult)
    (scope_validate_func : List String → PyVal → AsyncVal Bool)
    (_request : Request) (token : List Char) (required_scopes : List String) :
    Except Err AuthResult :=
  match (token_info_func token).resolve with
  | .noValue => .ok .noValue
  | .null => .error .invalidToken
  | .ti token_info =>
    let token_scopes : PyVal := SecurityHandlerFactory.get_token_scopes token_info
    if (scope_validate_func required_scopes token_scopes).resolve then .ok (.ok token_info)
    else .error (.insufficientScope required_scopes token_scopes)

/-- The loop of the async `verify_security`: each verifier's result is
awaited before the sentinel test, so verifier N+1 is not started before
verifier N's result is known. -/
def auth_loop : List AVerifier → Request → List String → Except Err (Option AuthResult)
  | [], _, _ => .ok none
  | func :: rest, request, required_scopes => do
    let token_info ← (func request required_scopes).resolve
    if token_info = .noValue ∧ rest.isEmpty = false then auth_loop rest request required_scopes
    else pure (some token_info)

/-- Async `verify_security`: identical to the synchronous wrapper after
each verifier result is awaited. -/
def verify_security {α : Type} (auth_funcs : List AVerifier)
    (required_scopes : List String) (function : Request → α) (request : Request) :
    Except Err (Outcome α) := do
  match ← auth_loop auth_funcs request required_scopes with
  | some .noValue => throw .noAuthorization
  | none => throw .nullAttributeError
  | some (.ok token_info) =>
    pure { user := ((token_info.lookup "sub").orElse (fun _ => token_info.lookup "uid")),
           token_info := token_info,
           response := function request }

end AsyncSecurityHandlerFactory

@[simp] theorem exceptBindOk {ε α β : Type} (a : α) (f : α → Except ε β) :
    (Except.ok a : Except ε α) >>= f = f a := rfl

@[simp] theorem exceptBindError {ε α β : Type} (e : ε) (f : α → Except ε β) :
    (Except.error e : Except ε α) >>= f = Except.error e := rfl

@[simp] theorem exceptPureOk {ε α : Type} (a : α) :
    (pure a : Except ε α) = Except.ok a := rfl

@[simp] theorem exceptThrowError {ε α : Type} (e : ε) :
    (throw e : Except ε α) = Except.error e := rfl

namespace SecurityHandlerFactory

theorem auth_loop_cons (func : Verifier) (rest : List Verifier) (request : Request)
    (required_scopes : List String) :
    auth_loop (func :: rest) request required_scopes =
      (func request required_scopes) >>= fun token_info =>
        if token_info = .noValue ∧ rest.isEmpty = false then
          auth_loop rest request required_scopes
        else Except.ok (some token_info) := rfl

theorem auth_loop_all_noValue (auth_funcs : List Verifier) (request : Request)
    (required_scopes : List String) (hne : auth_funcs ≠ [])
    (h : ∀ f ∈ auth_funcs, f request required_scopes = .ok .noValue) :
    auth_loop auth_funcs request required_scopes = .ok (some .noValue) := by
  induction auth_funcs with
  | nil => exact absurd rfl hne
  | cons f rest ih =>
    have hf : f request required_scopes = .ok .noValue := h f (List.mem_cons_self f rest)
    cases rest with
    | nil => simp [auth_loop_cons, hf]
    | cons g gs =>
      have hrec := ih (by simp) (fun x hx => h x (List.mem_cons_of_mem f hx))
      rw [auth_loop_cons, hf, exceptBindOk, if_pos ⟨rfl, rfl⟩]
      exact hrec

theorem auth_loop_first_hit (pre : List Verifier) (f : Verifier) (post : List Verifier)
    (request : Request) (required_scopes : List String)
    (hpre : ∀ g ∈ pre, g request required_scopes = .ok .noValue)
    (hf : f request required_scopes ≠ .ok .noValue) :
    auth_loop (pre ++ f :: post) request required_scopes
      = Except.map some (f request required_scopes) := by
  induction pre with
  | nil =>
    rw [List.nil_append, auth_loop_cons]
    cases hfr : f request required_scopes with
    | error e => simp [Except.map]
    | ok t =>
      have ht : t ≠ .noValue := fun hc => hf (by rw [hfr, hc])
      simp [ht, Except.map]
  | cons g gs ih =>
    have hg : g request required_scopes = .ok .noValue := hpre g (List.mem_cons_self g gs)
    have hrec := ih (fun x hx => hpre x (List.mem_cons_of_mem g hx))
    have hne : ((gs ++ f :: post).isEmpty = false) := by
      cases gs <;> simp
    rw [List.cons_append, auth_loop_cons, hg, exceptBindOk, if_pos ⟨rfl, hne⟩]
    exact hrec

theorem auth_loop_trace_cons (func : Verifier) (rest : List Verifier)
    (request : Request) (required_scopes : List String) (i : Nat) :
    auth_loop_trace (func :: rest) request required_scopes i =
      match func request required_scopes with
      | .error e => ([i], .error e)
      | .ok token_info =>
        if token_info = .noValue ∧ rest.isEmpty = false then
          let (tr, res) := auth_loop_trace rest request required_scopes (i + 1)
          (i :: tr, res)
        else ([i], .ok (some token_info)) := rfl

theorem auth_loop_trace_first_hit (pre : List Verifier) (f : Verifier)
    (post : List Verifier) (request : Request) (required_scopes : List String)
    (i : Nat)
    (hpre : ∀ g ∈ pre, g request required_scopes = .ok .noValue)
    (hf : f request required_scopes ≠ .ok .noValue) :
    auth_loop_trace (pre ++ f :: post) request required_scopes i
      = (List.range' i (pre.length + 1), Except.map some (f request required_scopes)) := by
  induction pre generalizing i with
  | nil =>
    rw [List.nil_append, auth_loop_trace_cons]
    cases hfr : f request required_scopes with
    | error e => simp [Except.map, List.range']
    | ok t =>
      have ht : t ≠ .noValue := fun hc => hf (by rw [hfr, hc])
      simp [ht, Except.map, List.range']
  | cons g gs ih =>
    have hg : g request required_scopes = .ok .noValue := hpre g (List.mem_cons_self g gs)
    have hrec := ih (i + 1) (fun x hx => hpre x (List.mem_cons_of_mem g hx))
    have hne : ((gs ++ f :: post).isEmpty = false) := by
      cases gs <;> simp
    rw [List.cons_append, auth_loop_trace_cons, hg]
    simp only [if_pos (And.intro rfl hne)]
    rw [hrec]
    simp [List.range', List.length_cons]

end SecurityHandlerFactory

/-- C1: for a nonempty configured verifier list, if every verifier
returns the `no_value` sentinel on the request then `verify_security`'s
wrapper raises `OAuthProblem` ("No authorization token provided",
HTTP 401).  The conclusion holds for every wrapped handler `function`
and does not mention it, so the handler is never invoked. -/
theorem c1_all_noValue_raises_noAuthorization {α : Type}
    (auth_funcs : List Verifier) (required_scopes : List String)
    (function : Request → α) (request : Request)
    (hne : auth_funcs ≠ [])
    (h : ∀ f ∈ auth_funcs, f request required_scopes = .ok .noValue) :
    SecurityHandlerFactory.verify_security auth_funcs required_scopes function request
      = .error .noAuthorization := by
  simp [SecurityHandlerFactory.verify_security,
        SecurityHandlerFactory.auth_loop_all_noValue auth_funcs request required_scopes hne h]

/-- Witness for C1 at a one-verifier configuration. -/
theorem c1_witness :
    SecurityHandlerFactory.verify_security [fun _ _ => .ok .noValue] ["s"]
      (fun _ => (0 : Nat)) ⟨[], []⟩ = .error .noAuthorization := by
  exact c1_all_noValue_raises_noAuthorization _ _ _ _ (by simp)
    (by intro f hf; simp at hf; subst hf; rfl)

/-- C10: with an empty verifier list, `verify_security`'s wrapper never
raises `NoAuthorization`: the loop body never runs, `token_info` keeps
its initial `None`, which is distinct from the `no_value` sentinel, so
the 401 branch is skipped and the subject lookup
`token_info.get('sub', ...)` is performed on `None` — the
`AttributeError` branch of the embedding. -/
theorem c10_empty_auth_funcs_null_dereference {α : Type}
    (required_scopes : List String) (function : Request → α) (request : Request) :
    SecurityHandlerFactory.verify_security [] required_scopes function request
      = .error .nullAttributeError ∧
    SecurityHandlerFactory.verify_security [] required_scopes function request
      ≠ .error .noAuthorization := by
  refine ⟨rfl, ?_⟩
  intro hc
  have : (Except.error Err.nullAttributeError : Except Err (Outcome α))
      = Except.error Err.noAuthorization := hc
  simp at this

/-- Witness for C10 at concrete inputs. -/
theorem c10_witness :
    SecurityHandlerFactory.verify_security [] ["s"] (fun _ => (0 : Nat)) ⟨[], []⟩
      = .error .nullAttributeError ∧
    SecurityHandlerFactory.verify_security [] ["s"] (fun _ => (0 : Nat)) ⟨[], []⟩
      ≠ .error .noAuthorization :=
  c10_empty_auth_funcs_null_dereference ["s"] (fun _ => (0 : Nat)) ⟨[], []⟩

/-- C2: when the verifiers before `f` all return the sentinel and `f`
returns the token-info mapping `ti`, the wrapper writes
`context['user']` as `ti['sub']` falling back to `ti['uid']`, writes
`context['token_info']` as the unmodified `ti` (extra claims pass
through), and invokes the wrapped handler; a `uid`-only mapping is
accepted exactly like a `sub` one, via the `none` branch of the
match. -/
theorem c2_success_installs_context {α : Type} (pre : List Verifier) (f : Verifier)
    (post : List Verifier) (required_scopes : List String)
    (function : Request → α) (request : Request) (ti : TokenInfo)
    (hpre : ∀ g ∈ pre, g request required_scopes = .ok .noValue)
    (hf : f request required_scopes = .ok (.ok ti)) :
    SecurityHandlerFactory.verify_security (pre ++ f :: post) required_scopes
        function request
      = .ok { user := match ti.lookup "sub" with
                      | some v => some v
                      | none => ti.lookup "uid",
              token_info := ti,
              response := function request } := by
  have hloop := SecurityHandlerFactory.auth_loop_first_hit pre f post request
    required_scopes hpre (by rw [hf]; intro hc; exact absurd (Except.ok.inj hc) (by simp))
  rw [hf] at hloop
  simp only [SecurityHandlerFactory.verify_security, hloop, Except.map]
  simp only [exceptBindOk]
  congr 1
  cases hsub : ti.lookup "sub" <;> simp [Option.orElse, hsub]

/-- Witness for C2: a `uid`-only token info installs `uid` as user. -/
theorem c2_witness :
    SecurityHandlerFactory.verify_security
        [fun _ _ => .ok .noValue,
         fun _ _ => .ok (.ok [("uid", PyVal.str "legacy"), ("x", PyVal.str "extra")])]
        ["s"] (fun _ => (7 : Nat)) ⟨[], []⟩
      = .ok { user := some (PyVal.str "legacy"),
              token_info := [("uid", PyVal.str "legacy"), ("x", PyVal.str "extra")],
              response := 7 } := by
  have h := c2_success_installs_context
    [fun _ _ => .ok .noValue]
    (fun _ _ => .ok (.ok [("uid", PyVal.str "legacy"), ("x", PyVal.str "extra")]))
    [] ["s"] (fun _ => (7 : Nat)) ⟨[], []⟩
    [("uid", PyVal.str "legacy"), ("x", PyVal.str "extra")]
    (by intro g hg; simp at hg; subst hg; rfl) rfl
  simpa using h

/-- C3: with the verifiers before `f` all returning the sentinel and `f`
returning anything else (a token info or a raised failure), the
instrumented loop invokes exactly the verifiers at positions
`0, 1, …, |pre|` in that order — the verifiers after `f` are never
invoked — and the loop's result is `f`'s result; consequently
`verify_security` behaves identically whether or not the later
verifiers are present. -/
theorem c3_short_circuit_in_declaration_order (pre : List Verifier) (f : Verifier)
    (post : List Verifier) (required_scopes : List String) (request : Request)
    (hpre : ∀ g ∈ pre, g request required_scopes = .ok .noValue)
    (hf : f request required_scopes ≠ .ok .noValue) :
    (SecurityHandlerFactory.auth_loop_trace (pre ++ f :: post) request
        required_scopes 0).1 = List.range (pre.length + 1) ∧
    (SecurityHandlerFactory.auth_loop_trace (pre ++ f :: post) request
        required_scopes 0).2 = Except.map some (f request required_scopes) ∧
    ∀ (α : Type) (function : Request → α),
      SecurityHandlerFactory.verify_security (pre ++ f :: post) required_scopes
          function request
        = SecurityHandlerFactory.verify_security (pre ++ [f]) required_scopes
            function request := by
  have htr := SecurityHandlerFactory.auth_loop_trace_first_hit pre f post request
    required_scopes 0 hpre hf
  have hl1 := SecurityHandlerFactory.auth_loop_first_hit pre f post request
    required_scopes hpre hf
  have hl2 := SecurityHandlerFactory.auth_loop_first_hit pre f [] request
    required_scopes hpre hf
  refine ⟨?_, ?_, ?_⟩
  · rw [htr, List.range_eq_range']
  · rw [htr]
  · intro α function
    simp only [SecurityHandlerFactory.verify_security, hl1, hl2]

/-- Witness for C3: a two-verifier chain where the second is reached and
succeeds; a third verifier is present but never invoked. -/
theorem c3_witness :
    (SecurityHandlerFactory.auth_loop_trace
        [fun _ _ => .ok .noValue,
         fun _ _ => .ok (.ok [("sub", PyVal.str "a")]),
         fun _ _ => .error .invalidToken] ⟨[], []⟩ ["s"] 0).1 = [0, 1] ∧
    (SecurityHandlerFactory.auth_loop_trace
        [fun _ _ => .ok .noValue,
         fun _ _ => .ok (.ok [("sub", PyVal.str "a")]),
         fun _ _ => .error .invalidToken] ⟨[], []⟩ ["s"] 0).2
      = .ok (some (.ok [("sub", PyVal.str "a")])) ∧
    ∀ (α : Type) (function : Request → α),
      SecurityHandlerFactory.verify_security
          [fun _ _ => .ok .noValue,
           fun _ _ => .ok (.ok [("sub", PyVal.str "a")]),
           fun _ _ => .error .invalidToken] ["s"] function ⟨[], []⟩
        = SecurityHandlerFactory.verify_security
            [fun _ _ => .ok .noValue,
             fun _ _ => .ok (.ok [("sub", PyVal.str "a")])] ["s"] function ⟨[], []⟩ := by
  have h := c3_short_circuit_in_declaration_order
    [fun _ _ => .ok .noValue]
    (fun _ _ => .ok (.ok [("sub", PyVal.str "a")]))
    [fun _ _ => .error .invalidToken]
    ["s"] ⟨[], []⟩
    (by intro g hg; simp at hg; subst hg; rfl)
    (by intro hc; exact absurd (Except.ok.inj hc) (by simp))
  simpa using h

theorem pySplitWs1_no_space (s : List Char) (hne : s ≠ [])
    (h : ∀ c ∈ s, isPySpace c = false) : pySplitWs1 s = [s] := by
  have hd : s.dropWhile isPySpace = s := by
    rw [List.dropWhile_eq_self_iff]
    intro hl hp
    have := h _ (List.get_mem s 0 hl)
    rw [this] at hp
    exact absurd hp (by simp)
  have ht : s.takeWhile (fun c => !isPySpace c) = s := by
    rw [List.takeWhile_eq_self_iff]
    intro x hx; simp [h x hx]
  have hdn : s.dropWhile (fun c => !isPySpace c) = [] := by
    rw [List.dropWhile_eq_nil_iff]
    intro x hx; simp [h x hx]
  simp [pySplitWs1, hd, ht, hdn, hne]

theorem pySplitColon1_no_colon (s : List Char) (h : ':' ∉ s) :
    pySplitColon1 s = [s.takeWhile (fun c => c != ':')] := by
  have hdw : s.dropWhile (fun c => c != ':') = [] := by
    rw [List.dropWhile_eq_nil_iff]
    intro x hx
    simp only [bne_iff_ne, ne_eq]
    exact fun hc => h (hc ▸ hx)
  simp [pySplitColon1, hdw]

/-- C4: credential extraction fails with `InvalidHeader`, never a silent
no-match, exactly when the credential is malformed: a missing
`Authorization` header yields `(None, None)`; a nonempty header with no
whitespace raises `InvalidHeader`; in general a nonempty header raises
`InvalidHeader` exactly when the whitespace split does not produce the
two parts `(scheme_token, value)`; on a two-part split the scheme token
is lower-cased; and `verify_basic` raises `InvalidHeader` when the
base64/Latin-1 decode of the value fails or when the decoded text has no
colon to split into `(username, password)`. -/
theorem c4_invalid_header_extraction
    (req0 : Request) (h0 : req0.headers.lookup "Authorization" = none)
    (req1 : Request) (a1 : String)
    (h1 : req1.headers.lookup "Authorization" = some a1) (h1ne : a1 ≠ "")
    (h1ws : ∀ c ∈ a1.toList, isPySpace c = false)
    (req2 : Request) (a2 : String)
    (h2 : req2.headers.lookup "Authorization" = some a2) (h2ne : a2 ≠ "")
    (req3 : Request) (a3 : String) (t3 v3 : List Char)
    (h3 : req3.headers.lookup "Authorization" = some a3) (h3ne : a3 ≠ "")
    (h3sp : pySplitWs1 a3.toList = [t3, v3])
    (binfo : List Char → List Char → List String → TIResult)
    (dec4 : List Char → Option (List Char)) (req4 : Request) (scopes4 : List String)
    (up4 : List Char)
    (h4 : SecurityHandlerFactory.get_auth_header_value req4
            = .ok (some "basic".toList, some up4))
    (h4dec : dec4 up4 = none)
    (dec5 : List Char → Option (List Char)) (req5 : Request) (scopes5 : List String)
    (up5 d5 : List Char)
    (h5 : SecurityHandlerFactory.get_auth_header_value req5
            = .ok (some "basic".toList, some up5))
    (h5dec : dec5 up5 = some d5) (h5nc : ':' ∉ d5) :
    SecurityHandlerFactory.get_auth_header_value req0 = .ok (none, none) ∧
    SecurityHandlerFactory.get_auth_header_value req1 = .error .invalidHeader ∧
    (SecurityHandlerFactory.get_auth_header_value req2 = .error .invalidHeader
       ↔ (pySplitWs1 a2.toList).length ≠ 2) ∧
    SecurityHandlerFactory.get_auth_header_value req3
       = .ok (some (pyLower t3), some v3) ∧
    SecurityHandlerFactory.verify_basic binfo dec4 req4 scopes4 = .error .invalidHeader ∧
    SecurityHandlerFactory.verify_basic binfo dec5 req5 scopes5 = .error .invalidHeader := by
  refine ⟨?_, ?_, ?_, ?_, ?_, ?_⟩
  · simp [SecurityHandlerFactory.get_auth_header_value, h0]
  · have hsp := pySplitWs1_no_space a1.toList
      (fun hc => h1ne (String.ext hc)) h1ws
    have hsp' : pySplitWs1 a1.data = [a1.data] := hsp
    simp [SecurityHandlerFactory.get_auth_header_value, h1, h1ne, hsp']
  · simp only [SecurityHandlerFactory.get_auth_header_value, h2, if_neg h2ne]
    cases hsp : pySplitWs1 a2.toList with
    | nil => simp
    | cons x xs =>
      cases xs with
      | nil => simp
      | cons y ys =>
        cases ys with
        | nil => simp
        | cons z zs => simp
  · have h3sp' : pySplitWs1 a3.data = [t3, v3] := h3sp
    simp [SecurityHandlerFactory.get_auth_header_value, h3, h3ne, h3sp']
  · simp only [SecurityHandlerFactory.verify_basic, h4, exceptBindOk]
    simp [h4dec]
  · have hc1 := pySplitColon1_no_colon d5 h5nc
    simp only [SecurityHandlerFactory.verify_basic, h5, exceptBindOk]
    simp [h5dec, hc1]

/-- Witness for C4 at concrete requests: header `"Bearer"` with no
whitespace, header `"Basic <bad-b64>"` with a failing decode, and a
decoded credential with no colon. -/
theorem c4_witness :
    SecurityHandlerFactory.get_auth_header_value ⟨[], []⟩ = .ok (none, none) ∧
    SecurityHandlerFactory.get_auth_header_value
        ⟨[("Authorization", "Bearer")], []⟩ = .error .invalidHeader ∧
    (SecurityHandlerFactory.get_auth_header_value
        ⟨[("Authorization", "Bearer")], []⟩ = .error .invalidHeader
      ↔ (pySplitWs1 "Bearer".toList).length ≠ 2) ∧
    SecurityHandlerFactory.get_auth_header_value
        ⟨[("Authorization", "Basic QQ==")], []⟩
      = .ok (some (pyLower "Basic".toList), some "QQ==".toList) ∧
    SecurityHandlerFactory.verify_basic (fun _ _ _ => .null) (fun _ => none)
        ⟨[("Authorization", "basic !!!")], []⟩ ["s"] = .error .invalidHeader ∧
    SecurityHandlerFactory.verify_basic (fun _ _ _ => .null)
        (fun _ => some "alicesecret".toList)
        ⟨[("Authorization", "basic eA==")], []⟩ ["s"] = .error .invalidHeader := by
  exact c4_invalid_header_extraction
    ⟨[], []⟩ rfl
    ⟨[("Authorization", "Bearer")], []⟩ "Bearer" rfl (by decide) (by decide)
    ⟨[("Authorization", "Bearer")], []⟩ "Bearer" rfl (by decide)
    ⟨[("Authorization", "Basic QQ==")], []⟩ "Basic QQ==" "Basic".toList "QQ==".toList
      rfl (by decide) (by decide)
    (fun _ _ _ => .null)
    (fun _ => none) ⟨[("Authorization", "basic !!!")], []⟩ ["s"] "!!!".toList
      rfl rfl
    (fun _ => some "alicesecret".toList) ⟨[("Authorization", "basic eA==")], []⟩ ["s"]
      "eA==".toList "alicesecret".toList rfl rfl (by decide)

/-- C5: `validate_scope` returns true exactly when every required scope
is in the normalized granted set (strings space-split, lists taken as
sets), hence validation is monotone in granted scopes; and
`check_oauth_func` raises `InsufficientScope` carrying the required
scopes and the token's granted-scopes value exactly when the validator
returns false, the granted scopes being read from the `scope` key with
fallback to `scopes` and default `''`. -/
theorem c5_scope_subset_validation
    (required : List String) (token_scopes : PyVal)
    (required_m : List String) (tm tm' : PyVal)
    (hmono : ∀ x ∈ SecurityHandlerFactory.scope_set tm,
        x ∈ SecurityHandlerFactory.scope_set tm')
    (hval : SecurityHandlerFactory.validate_scope required_m tm = true)
    (tf : List Char → TIResult) (svf : List String → PyVal → Bool)
    (req : Request) (tok : List Char) (scopes : List String) (tinfo : TokenInfo)
    (htf : tf tok = .ti tinfo)
    (t1 : TokenInfo) (v1 : PyVal) (hd1 : t1.lookup "scope" = some v1)
    (t2 : TokenInfo) (w2 : PyVal) (hd2a : t2.lookup "scope" = none)
    (hd2b : t2.lookup "scopes" = some w2)
    (t3 : TokenInfo) (hd3a : t3.lookup "scope" = none)
    (hd3b : t3.lookup "scopes" = none) :
    (SecurityHandlerFactory.validate_scope required token_scopes = true
       ↔ ∀ x ∈ required, x ∈ SecurityHandlerFactory.scope_set token_scopes) ∧
    SecurityHandlerFactory.validate_scope required_m tm' = true ∧
    (SecurityHandlerFactory.check_oauth_func tf svf req tok scopes
        = .error (.insufficientScope scopes
            (SecurityHandlerFactory.get_token_scopes tinfo))
      ↔ svf scopes (SecurityHandlerFactory.get_token_scopes tinfo) = false) ∧
    (svf scopes (SecurityHandlerFactory.get_token_scopes tinfo) = true →
      SecurityHandlerFactory.check_oauth_func tf svf req tok scopes
        = .ok (.ok tinfo)) ∧
    SecurityHandlerFactory.get_token_scopes t1 = v1 ∧
    SecurityHandlerFactory.get_token_scopes t2 = w2 ∧
    SecurityHandlerFactory.get_token_scopes t3 = .str "" := by
  refine ⟨?_, ?_, ?_, ?_, ?_, ?_, ?_⟩
  · simp [SecurityHandlerFactory.validate_scope, List.all_eq_true]
  · simp only [SecurityHandlerFactory.validate_scope, List.all_eq_true,
      decide_eq_true_eq] at hval ⊢
    exact fun x hx => hmono x (hval x hx)
  · simp only [SecurityHandlerFactory.check_oauth_func, htf]
    cases hsvf : svf scopes (SecurityHandlerFactory.get_token_scopes tinfo) <;>
      simp [hsvf]
  · intro hsvf
    simp [SecurityHandlerFactory.check_oauth_func, htf, hsvf]
  · simp [SecurityHandlerFactory.get_token_scopes, hd1]
  · simp [SecurityHandlerFactory.get_token_scopes, hd2a, hd2b]
  · simp [SecurityHandlerFactory.get_token_scopes, hd3a, hd3b]

/-- Witness for C5 with the default validator as the scope-validate
function: a string granted value, a list granted value, a shrunken and a
grown granted set, and an `InsufficientScope` raise carrying both
values. -/
theorem c5_witness :
    (SecurityHandlerFactory.validate_scope ["a"] (.str "a b") = true
       ↔ ∀ x ∈ ["a"], x ∈ SecurityHandlerFactory.scope_set (.str "a b")) ∧
    SecurityHandlerFactory.validate_scope ["a"] (.strList ["a", "c"]) = true ∧
    (SecurityHandlerFactory.check_oauth_func
        (fun _ => .ti [("scope", PyVal.strList ["r"])])
        SecurityHandlerFactory.validate_scope ⟨[], []⟩ "t".toList ["r", "s"]
        = .error (.insufficientScope ["r", "s"]
            (SecurityHandlerFactory.get_token_scopes [("scope", PyVal.strList ["r"])]))
      ↔ SecurityHandlerFactory.validate_scope ["r", "s"]
          (SecurityHandlerFactory.get_token_scopes [("scope", PyVal.strList ["r"])])
          = false) ∧
    (SecurityHandlerFactory.validate_scope ["r", "s"]
        (SecurityHandlerFactory.get_token_scopes [("scope", PyVal.strList ["r"])])
        = true →
      SecurityHandlerFactory.check_oauth_func
          (fun _ => .ti [("scope", PyVal.strList ["r"])])
          SecurityHandlerFactory.validate_scope ⟨[], []⟩ "t".toList ["r", "s"]
        = .ok (.ok [("scope", PyVal.strList ["r"])])) ∧
    SecurityHandlerFactory.get_token_scopes [("scope", PyVal.strList ["r"])]
      = PyVal.strList ["r"] ∧
    SecurityHandlerFactory.get_token_scopes [("scopes", PyVal.str "x y")]
      = PyVal.str "x y" ∧
    SecurityHandlerFactory.get_token_scopes [("sub", PyVal.str "u")] = .str "" := by
  exact c5_scope_subset_validation
    ["a"] (.str "a b")
    ["a"] (.str "a") (.strList ["a", "c"]) (by decide) (by decide)
    (fun _ => .ti [("scope", PyVal.strList ["r"])])
    SecurityHandlerFactory.validate_scope ⟨[], []⟩ "t".toList ["r", "s"]
    [("scope", PyVal.strList ["r"])] rfl
    [("scope", PyVal.strList ["r"])] (PyVal.strList ["r"]) rfl
    [("scopes", PyVal.str "x y")] (PyVal.str "x y") rfl rfl
    [("sub", PyVal.str "u")] rfl rfl

/-- C6: each check wrapper yields exactly one of three outcomes — the
sentinel (propagated from the verification function, or produced by the
scheme wrapper on auth-type mismatch), a typed raised failure exactly
when the verification function returns `None` (`InvalidToken` for
bearer and oauth2, `InvalidCredentials` for basic, `InvalidApiKey` for
apiKey), or the returned token info itself; an empty mapping is a
successful token info, distinct from both `None` and the sentinel. -/
theorem c6_three_way_outcome_classification
    (tf : List Char → TIResult) (req : Request) (tok : List Char)
    (scopes : List String)
    (binfo : List Char → List Char → List String → TIResult)
    (username password : List Char)
    (akf : List Char → List String → TIResult) (api_key : List Char)
    (tfo : List Char → TIResult) (svf : List String → PyVal → Bool)
    (hnull : tfo tok = .null)
    (reqm : Request) (tm vm : List Char)
    (hm : SecurityHandlerFactory.get_auth_header_value reqm = .ok (some tm, some vm))
    (hmne : tm ≠ "bearer".toList) :
    (SecurityHandlerFactory.check_bearer_token tf req tok scopes = .ok .noValue ∨
     SecurityHandlerFactory.check_bearer_token tf req tok scopes
        = .error .invalidToken ∨
     ∃ t, SecurityHandlerFactory.check_bearer_token tf req tok scopes
        = .ok (.ok t)) ∧
    (SecurityHandlerFactory.check_bearer_token tf req tok scopes = .ok .noValue
       ↔ tf tok = .noValue) ∧
    (SecurityHandlerFactory.check_bearer_token tf req tok scopes
        = .error .invalidToken ↔ tf tok = .null) ∧
    (∀ t, SecurityHandlerFactory.check_bearer_token tf req tok scopes = .ok (.ok t)
       ↔ tf tok = .ti t) ∧
    (SecurityHandlerFactory.check_basic_auth binfo req username password scopes
        = .error .invalidCredentials ↔ binfo username password scopes = .null) ∧
    (SecurityHandlerFactory.check_api_key akf req api_key scopes
        = .error .invalidApiKey ↔ akf api_key scopes = .null) ∧
    SecurityHandlerFactory.check_oauth_func tfo svf req tok scopes
        = .error .invalidToken ∧
    (SecurityHandlerFactory.check_bearer_token (fun _ => .ti []) req tok scopes
        = .ok (.ok []) ∧
     SecurityHandlerFactory.check_bearer_token (fun _ => .ti []) req tok scopes
        ≠ .error .invalidToken ∧
     SecurityHandlerFactory.check_bearer_token (fun _ => .ti []) req tok scopes
        ≠ .ok .noValue) ∧
    SecurityHandlerFactory.verify_bearer tf reqm scopes = .ok .noValue := by
  refine ⟨?_, ?_, ?_, ?_, ?_, ?_, ?_, ?_, ?_⟩
  · cases h : tf tok with
    | noValue => exact Or.inl (by simp [SecurityHandlerFactory.check_bearer_token, h])
    | null =>
      exact Or.inr (Or.inl (by simp [SecurityHandlerFactory.check_bearer_token, h]))
    | ti t =>
      exact Or.inr (Or.inr ⟨t, by simp [SecurityHandlerFactory.check_bearer_token, h]⟩)
  · cases h : tf tok <;> simp [SecurityHandlerFactory.check_bearer_token, h]
  · cases h : tf tok <;> simp [SecurityHandlerFactory.check_bearer_token, h]
  · intro t
    cases h : tf tok <;>
      simp [SecurityHandlerFactory.check_bearer_token, h, eq_comm]
  · cases h : binfo username password scopes <;>
      simp [SecurityHandlerFactory.check_basic_auth, h]
  · cases h : akf api_key scopes <;> simp [SecurityHandlerFactory.check_api_key, h]
  · simp [SecurityHandlerFactory.check_oauth_func, hnull]
  · refine ⟨by simp [SecurityHandlerFactory.check_bearer_token], ?_, ?_⟩ <;>
      simp [SecurityHandlerFactory.check_bearer_token]
  · simp only [SecurityHandlerFactory.verify_bearer, hm, exceptBindOk]
    rw [if_pos hmne]
    rfl

/-- Witness for C6: a `None`-returning bearer function, a
sentinel-returning basic function, a token-returning api-key function,
and a `basic`-typed header seen by a bearer verifier. -/
theorem c6_witness :
    (SecurityHandlerFactory.check_bearer_token (fun _ => .null) ⟨[], []⟩
        "t".toList ["s"] = .ok .noValue ∨
     SecurityHandlerFactory.check_bearer_token (fun _ => .null) ⟨[], []⟩
        "t".toList ["s"] = .error .invalidToken ∨
     ∃ t, SecurityHandlerFactory.check_bearer_token (fun _ => .null) ⟨[], []⟩
        "t".toList ["s"] = .ok (.ok t)) ∧
    (SecurityHandlerFactory.check_bearer_token (fun _ => .null) ⟨[], []⟩
        "t".toList ["s"] = .ok .noValue ↔ (TIResult.null : TIResult) = .noValue) ∧
    (SecurityHandlerFactory.check_bearer_token (fun _ => .null) ⟨[], []⟩
        "t".toList ["s"] = .error .invalidToken
      ↔ (TIResult.null : TIResult) = .null) ∧
    (∀ t, SecurityHandlerFactory.check_bearer_token (fun _ => .null) ⟨[], []⟩
        "t".toList ["s"] = .ok (.ok t) ↔ (TIResult.null : TIResult) = .ti t) ∧
    (SecurityHandlerFactory.check_basic_auth (fun _ _ _ => .noValue) ⟨[], []⟩
        "u".toList "p".toList ["s"] = .error .invalidCredentials
      ↔ (TIResult.noValue : TIResult) = .null) ∧
    (SecurityHandlerFactory.check_api_key (fun _ _ => .ti [("sub", PyVal.str "k")])
        ⟨[], []⟩ "k".toList ["s"] = .error .invalidApiKey
      ↔ (TIResult.ti [("sub", PyVal.str "k")] : TIResult) = .null) ∧
    SecurityHandlerFactory.check_oauth_func (fun _ => .null)
        SecurityHandlerFactory.validate_scope ⟨[], []⟩ "t".toList ["s"]
        = .error .invalidToken ∧
    (SecurityHandlerFactory.check_bearer_token (fun _ => .ti []) ⟨[], []⟩
        "t".toList ["s"] = .ok (.ok []) ∧
     SecurityHandlerFactory.check_bearer_token (fun _ => .ti []) ⟨[], []⟩
        "t".toList ["s"] ≠ .error .invalidToken ∧
     SecurityHandlerFactory.check_bearer_token (fun _ => .ti []) ⟨[], []⟩
        "t".toList ["s"] ≠ .ok .noValue) ∧
    SecurityHandlerFactory.verify_bearer (fun _ => .null)
        ⟨[("Authorization", "Basic eA==")], []⟩ ["s"] = .ok .noValue := by
  exact c6_three_way_outcome_classification
    (fun _ => .null) ⟨[], []⟩ "t".toList ["s"]
    (fun _ _ _ => .noValue) "u".toList "p".toList
    (fun _ _ => .ti [("sub", PyVal.str "k")]) "k".toList
    (fun _ => .null) SecurityHandlerFactory.validate_scope rfl
    ⟨[("Authorization", "Basic eA==")], []⟩ "basic".toList "eA==".toList
    rfl (by decide)

/-- C7 counterexample: the base factory's `get_token_info_remote`, on a
non-success HTTP status, returns Python `None` — it does not raise
`RemoteTokenRejected` (nor anything else), contradicting the claim that
the remote introspector raises on non-success. -/
theorem c7_counterexample :
    SecurityHandlerFactory.get_token_info_remote
        (fun _ => ⟨false, []⟩) "https://ti.example" "tok".toList = .ok none ∧
    SecurityHandlerFactory.get_token_info_remote
        (fun _ => ⟨false, []⟩) "https://ti.example" "tok".toList
      ≠ .error .remoteTokenRejected := by
  exact ⟨rfl, by simp [SecurityHandlerFactory.get_token_info_remote]⟩

/-- C7 amended: both introspectors GET the token-info URL with header
`Authorization: Bearer <token>` and a bounded timeout (the configured
`remote_token_timeout` for the Flask one, the literal `5` for the base
one) and return the parsed body on success; on a non-success status the
Flask implementation raises `RemoteTokenRejected` while the base
implementation returns `None` without raising. -/
theorem c7_amended_remote_introspector
    (http1 : HttpRequestMade → HttpResponse) (t1 : Nat) (url1 : String)
    (tok1 : List Char)
    (h1 : (http1 ⟨url1, "Bearer ".toList ++ tok1, t1⟩).ok = false)
    (http2 : HttpRequestMade → HttpResponse) (t2 : Nat) (url2 : String)
    (tok2 : List Char)
    (h2 : (http2 ⟨url2, "Bearer ".toList ++ tok2, t2⟩).ok = true)
    (http3 : HttpRequestMade → HttpResponse) (url3 : String) (tok3 : List Char)
    (h3 : (http3 ⟨url3, "Bearer ".toList ++ tok3, 5⟩).ok = false)
    (http4 : HttpRequestMade → HttpResponse) (url4 : String) (tok4 : List Char)
    (h4 : (http4 ⟨url4, "Bearer ".toList ++ tok4, 5⟩).ok = true) :
    FlaskSecurityHandlerFactory.get_token_info_remote http1 t1 url1 tok1
      = .error .remoteTokenRejected ∧
    FlaskSecurityHandlerFactory.get_token_info_remote http2 t2 url2 tok2
      = .ok (http2 ⟨url2, "Bearer ".toList ++ tok2, t2⟩).body ∧
    SecurityHandlerFactory.get_token_info_remote http3 url3 tok3 = .ok none ∧
    SecurityHandlerFactory.get_token_info_remote http4 url4 tok4
      = .ok (some (http4 ⟨url4, "Bearer ".toList ++ tok4, 5⟩).body) := by
  refine ⟨?_, ?_, ?_, ?_⟩
  · simp only [FlaskSecurityHandlerFactory.get_token_info_remote]
    rw [h1]
    simp
  · simp only [FlaskSecurityHandlerFactory.get_token_info_remote]
    rw [h2]
    simp
  · simp only [SecurityHandlerFactory.get_token_info_remote]
    rw [h3]
    simp
  · simp only [SecurityHandlerFactory.get_token_info_remote]
    rw [h4]
    simp

/-- Witness for the amended C7 at concrete transports. -/
theorem c7_witness :
    FlaskSecurityHandlerFactory.get_token_info_remote (fun _ => ⟨false, []⟩) 30
        "u1" "t1".toList = .error .remoteTokenRejected ∧
    FlaskSecurityHandlerFactory.get_token_info_remote
        (fun _ => ⟨true, [("sub", PyVal.str "a")]⟩) 30 "u2" "t2".toList
      = .ok ((fun (_ : HttpRequestMade) =>
          (⟨true, [("sub", PyVal.str "a")]⟩ : HttpResponse))
            ⟨"u2", "Bearer ".toList ++ "t2".toList, 30⟩).body ∧
    SecurityHandlerFactory.get_token_info_remote (fun _ => ⟨false, []⟩)
        "u3" "t3".toList = .ok none ∧
    SecurityHandlerFactory.get_token_info_remote
        (fun _ => ⟨true, [("sub", PyVal.str "a")]⟩) "u4" "t4".toList
      = .ok (some ((fun (_ : HttpRequestMade) =>
          (⟨true, [("sub", PyVal.str "a")]⟩ : HttpResponse))
            ⟨"u4", "Bearer ".toList ++ "t4".toList, 5⟩).body) := by
  exact c7_amended_remote_introspector
    (fun _ => ⟨false, []⟩) 30 "u1" "t1".toList rfl
    (fun _ => ⟨true, [("sub", PyVal.str "a")]⟩) 30 "u2" "t2".toList rfl
    (fun _ => ⟨false, []⟩) "u3" "t3".toList rfl
    (fun _ => ⟨true, [("sub", PyVal.str "a")]⟩) "u4" "t4".toList rfl

/-- C8 counterexample: the wrapper installed by `security_deny` raises
`ConnexionException` ("Error in security definitions") when it is
invoked on a request — i.e. at request time — contradicting the claim
that this configuration failure is never raised at request time. -/
theorem c8_counterexample :
    SecurityHandlerFactory.security_deny (fun (_ : Request) => (0 : Nat)) ⟨[], []⟩
      = .error .configurationError := rfl

/-- C8 amended: when a configured name is present and the load-time name
resolution fails, `_get_function` propagates that failure at load time;
but when no verification function is configured, `_get_function` returns
the default and the loader falls back to `security_deny`, whose wrapper
raises `ConnexionException` on every invocation — at request time, with
the wrapped handler never invoked (the result is independent of the
handler). -/
theorem c8_amended_configuration_failure {α β F : Type}
    (f g : α → β) (x : α)
    (secDef env : List (String × String)) (key envKey : String)
    (resolve : String → Except Err F) (default? : Option F)
    (name : String) (e : Err)
    (hname : SecurityHandlerFactory.pyStrTruthy (secDef.lookup key) = some name)
    (hres : resolve name = .error e)
    (secDef2 env2 : List (String × String))
    (hn1 : SecurityHandlerFactory.pyStrTruthy (secDef2.lookup key) = none)
    (hn2 : SecurityHandlerFactory.pyStrTruthy (env2.lookup envKey) = none) :
    SecurityHandlerFactory.security_deny f x = .error .configurationError ∧
    SecurityHandlerFactory.security_deny f = SecurityHandlerFactory.security_deny g ∧
    SecurityHandlerFactory.get_function_from_config secDef key env envKey
        resolve default? = .error e ∧
    SecurityHandlerFactory.get_function_from_config secDef2 key env2 envKey
        resolve default? = .ok default? := by
  refine ⟨rfl, rfl, ?_, ?_⟩
  · simp [SecurityHandlerFactory.get_function_from_config, hname, hres, Except.map]
  · simp [SecurityHandlerFactory.get_function_from_config, hn1, hn2]

/-- Witness for the amended C8 at a concrete failing resolver and an
unconfigured definition. -/
theorem c8_witness :
    SecurityHandlerFactory.security_deny (fun (_ : Request) => (0 : Nat)) ⟨[], []⟩
      = .error .configurationError ∧
    SecurityHandlerFactory.security_deny (fun (_ : Request) => (0 : Nat))
      = SecurityHandlerFactory.security_deny (fun (_ : Request) => (1 : Nat)) ∧
    SecurityHandlerFactory.get_function_from_config
        [("x-tokenInfoFunc", "missing.mod.fn")] "x-tokenInfoFunc" []
        "TOKENINFO_FUNC" (fun _ => .error .configurationError) (none : Option Nat)
      = .error .configurationError ∧
    SecurityHandlerFactory.get_function_from_config [] "x-tokenInfoFunc" []
        "TOKENINFO_FUNC" (fun _ => .error .configurationError) (none : Option Nat)
      = .ok none := by
  exact c8_amended_configuration_failure
    (fun (_ : Request) => (0 : Nat)) (fun (_ : Request) => (1 : Nat)) ⟨[], []⟩
    [("x-tokenInfoFunc", "missing.mod.fn")] [] "x-tokenInfoFunc" "TOKENINFO_FUNC"
    (fun _ => .error .configurationError) none "missing.mod.fn" .configurationError
    rfl rfl [] [] rfl rfl

theorem aauth_loop_cons (func : AVerifier) (rest : List AVerifier)
    (request : Request) (required_scopes : List String) :
    AsyncSecurityHandlerFactory.auth_loop (func :: rest) request required_scopes =
      (func request required_scopes).resolve >>= fun token_info =>
        if token_info = .noValue ∧ rest.isEmpty = false then
          AsyncSecurityHandlerFactory.auth_loop rest request required_scopes
        else Except.ok (some token_info) := rfl

theorem auth_loop_sync_async_agree (afuncs : List AVerifier) (sfuncs : List Verifier)
    (h : List.Forall₂
      (fun af sf => ∀ request required_scopes,
        (af request required_scopes).resolve = sf request required_scopes)
      afuncs sfuncs)
    (request : Request) (required_scopes : List String) :
    AsyncSecurityHandlerFactory.auth_loop afuncs request required_scopes
      = SecurityHandlerFactory.auth_loop sfuncs request required_scopes := by
  induction h with
  | nil => rfl
  | cons hfs hrest ih =>
    rename_i af sf afs sfs
    have hie : afs.isEmpty = sfs.isEmpty := by cases hrest <;> rfl
    rw [aauth_loop_cons, SecurityHandlerFactory.auth_loop_cons,
      hfs request required_scopes, hie]
    cases hsf : sf request required_scopes with
    | error e => rfl
    | ok t =>
      simp only [exceptBindOk]
      by_cases hc : t = .noValue ∧ sfs.isEmpty = false
      · rw [if_pos hc, if_pos hc]
        exact ih
      · rw [if_neg hc, if_neg hc]

/-- C9: the synchronous and asynchronous orchestrators implement
identical verifier semantics: whenever each async verifier resolves to
the same outcome its sync counterpart returns, both `verify_security`
wrappers install the same context and produce the same result or raise
the same typed failure; likewise each async `check_*` wrapper agrees
with its synchronous counterpart whenever the awaited verification
(and scope-validation) results coincide — the two differ only in the
awaiting of pending values. -/
theorem c9_sync_async_orchestrators_agree
    (afuncs : List AVerifier) (sfuncs : List Verifier)
    (hfuncs : List.Forall₂
      (fun af sf => ∀ request required_scopes,
        (af request required_scopes).resolve = sf request required_scopes)
      afuncs sfuncs)
    (atf : List Char → AsyncVal TIResult) (tf : List Char → TIResult)
    (htf : ∀ token, (atf token).resolve = tf token)
    (abf : List Char → List Char → List String → AsyncVal TIResult)
    (bf : List Char → List Char → List String → TIResult)
    (hbf : ∀ u p s, (abf u p s).resolve = bf u p s)
    (akf : List Char → List String → AsyncVal TIResult)
    (kf : List Char → List String → TIResult)
    (hkf : ∀ k s, (akf k s).resolve = kf k s)
    (aof : List Char → AsyncVal TIResult) (osf : List Char → TIResult)
    (hof : ∀ token, (aof token).resolve = osf token)
    (asvf : List String → PyVal → AsyncVal Bool) (svf : List String → PyVal → Bool)
    (hsvf : ∀ r g, (asvf r g).resolve = svf r g) :
    (∀ (α : Type) (function : Request → α) (request : Request)
        (required_scopes : List String),
      AsyncSecurityHandlerFactory.verify_security afuncs required_scopes
          function request
        = SecurityHandlerFactory.verify_security sfuncs required_scopes
            function request) ∧
    (∀ request token required_scopes,
      AsyncSecurityHandlerFactory.check_bearer_token atf request token
          required_scopes
        = SecurityHandlerFactory.check_bearer_token tf request token
            required_scopes) ∧
    (∀ request u p required_scopes,
      AsyncSecurityHandlerFactory.check_basic_auth abf request u p required_scopes
        = SecurityHandlerFactory.check_basic_auth bf request u p required_scopes) ∧
    (∀ request k required_scopes,
      AsyncSecurityHandlerFactory.check_api_key akf request k required_scopes
        = SecurityHandlerFactory.check_api_key kf request k required_scopes) ∧
    (∀ request token required_scopes,
      AsyncSecurityHandlerFactory.check_oauth_func aof asvf request token
          required_scopes
        = SecurityHandlerFactory.check_oauth_func osf svf request token
            required_scopes) := by
  refine ⟨?_, ?_, ?_, ?_, ?_⟩
  · intro α function request required_scopes
    simp only [AsyncSecurityHandlerFactory.verify_security,
      SecurityHandlerFactory.verify_security,
      auth_loop_sync_async_agree afuncs sfuncs hfuncs request required_scopes]
  · intro request token required_scopes
    simp only [AsyncSecurityHandlerFactory.check_bearer_token,
      SecurityHandlerFactory.check_bearer_token, htf token]
  · intro request u p required_scopes
    simp only [AsyncSecurityHandlerFactory.check_basic_auth,
      SecurityHandlerFactory.check_basic_auth, hbf u p required_scopes]
  · intro request k required_scopes
    simp only [AsyncSecurityHandlerFactory.check_api_key,
      SecurityHandlerFactory.check_api_key, hkf k required_scopes]
  · intro request token required_scopes
    simp only [AsyncSecurityHandlerFactory.check_oauth_func,
      SecurityHandlerFactory.check_oauth_func, hof token]
    cases ho : osf token with
    | noValue => rfl
    | null => rfl
    | ti t => simp only [hsvf]

/-- Witness for C9: a suspended verifier chain resolving to the values a
synchronous chain returns directly. -/
theorem c9_witness :
    (∀ (α : Type) (function : Request → α) (request : Request)
        (required_scopes : List String),
      AsyncSecurityHandlerFactory.verify_security
          [fun _ _ => .pending (.done (.ok (.ok [("sub", PyVal.str "w")])))]
          required_scopes function request
        = SecurityHandlerFactory.verify_security
            [fun _ _ => .ok (.ok [("sub", PyVal.str "w")])]
            required_scopes function request) ∧
    (∀ request token required_scopes,
      AsyncSecurityHandlerFactory.check_bearer_token (fun _ => .done .null)
          request token required_scopes
        = SecurityHandlerFactory.check_bearer_token (fun _ => .null)
            request token required_scopes) ∧
    (∀ request u p required_scopes,
      AsyncSecurityHandlerFactory.check_basic_auth
          (fun _ _ _ => .pending (.done .noValue)) request u p required_scopes
        = SecurityHandlerFactory.check_basic_auth (fun _ _ _ => .noValue)
            request u p required_scopes) ∧
    (∀ request k required_scopes,
      AsyncSecurityHandlerFactory.check_api_key (fun _ _ => .done (.ti []))
          request k required_scopes
        = SecurityHandlerFactory.check_api_key (fun _ _ => .ti [])
            request k required_scopes) ∧
    (∀ request token required_scopes,
      AsyncSecurityHandlerFactory.check_oauth_func
          (fun _ => .done (.ti [("scope", PyVal.str "r")]))
          (fun r g => .done (SecurityHandlerFactory.validate_scope r g))
          request token required_scopes
        = SecurityHandlerFactory.check_oauth_func
            (fun _ => .ti [("scope", PyVal.str "r")])
            SecurityHandlerFactory.validate_scope request token required_scopes) := by
  exact c9_sync_async_orchestrators_agree
    [fun _ _ => .pending (.done (.ok (.ok [("sub", PyVal.str "w")])))]
    [fun _ _ => .ok (.ok [("sub", PyVal.str "w")])]
    (List.Forall₂.cons (fun _ _ => rfl) List.Forall₂.nil)
    (fun _ => .done .null) (fun _ => .null) (fun _ => rfl)
    (fun _ _ _ => .pending (.done .noValue)) (fun _ _ _ => .noValue)
    (fun _ _ _ => rfl)
    (fun _ _ => .done (.ti [])) (fun _ _ => .ti []) (fun _ _ => rfl)
    (fun _ => .done (.ti [("scope", PyVal.str "r")]))
    (fun _ => .ti [("scope", PyVal.str "r")]) (fun _ => rfl)
    (fun r g => .done (SecurityHandlerFactory.validate_scope r g))
    SecurityHandlerFactory.validate_scope (fun _ _ => rfl)
